import Mathlib

/-!
Verification of the AQI computation pipeline of `src/app1.py`.

The Python source is shallowly embedded: concentrations (Python floats fed
through exact arithmetic) are modelled as rationals, Python integers as
`ℤ`/`ℕ`, and Python's built-in `round` (round-half-to-even, "banker's
rounding") as `pyRound` on `ℚ`.  Functions keep the source's names.
-/

/-- The fixed pollutant set, from `pollutants = ['PM2.5','PM10','NO2','NH3','SO2','CO','O3']`
(line 14 of `app1.py`).  `PM2.5` is spelt `PM25`. -/
inductive Pollutant where
  | PM25 | PM10 | NO2 | NH3 | SO2 | CO | O3
  deriving DecidableEq, Repr

instance : Fintype Pollutant :=
  ⟨⟨{.PM25, .PM10, .NO2, .NH3, .SO2, .CO, .O3}, by decide⟩, by intro x; cases x <;> decide⟩

/-- The module-level `pollutants` list (line 14), in source order. -/
def pollutants : List Pollutant :=
  [.PM25, .PM10, .NO2, .NH3, .SO2, .CO, .O3]

/-- One breakpoint tuple `(low, high, index_low, index_high)` as unpacked at
line 28 of `app1.py`. -/
structure BP where
  low : ℚ
  high : ℚ
  index_low : ℤ
  index_high : ℤ
  deriving DecidableEq, Repr

/-- The `breakpoints` dictionary of `calculate_sub_index` (lines 18–26),
transcribed verbatim; CO's decimal endpoints are exact rationals. -/
def breakpoints : Pollutant → List BP
  | .PM25 => [⟨0,30,0,50⟩, ⟨31,60,51,100⟩, ⟨61,90,101,200⟩, ⟨91,120,201,300⟩,
              ⟨121,250,301,400⟩, ⟨251,500,401,500⟩]
  | .PM10 => [⟨0,50,0,50⟩, ⟨51,100,51,100⟩, ⟨101,250,101,200⟩, ⟨251,350,201,300⟩,
              ⟨351,430,301,400⟩, ⟨431,600,401,500⟩]
  | .NO2  => [⟨0,40,0,50⟩, ⟨41,80,51,100⟩, ⟨81,180,101,200⟩, ⟨181,280,201,300⟩,
              ⟨281,400,301,400⟩, ⟨401,1000,401,500⟩]
  | .NH3  => [⟨0,200,0,50⟩, ⟨201,400,51,100⟩, ⟨401,800,101,200⟩, ⟨801,1200,201,300⟩,
              ⟨1201,1800,301,400⟩, ⟨1801,2400,401,500⟩]
  | .SO2  => [⟨0,40,0,50⟩, ⟨41,80,51,100⟩, ⟨81,380,101,200⟩, ⟨381,800,201,300⟩,
              ⟨801,1600,301,400⟩, ⟨1601,2000,401,500⟩]
  | .CO   => [⟨0,1,0,50⟩, ⟨11/10,2,51,100⟩, ⟨21/10,10,101,200⟩, ⟨101/10,17,201,300⟩,
              ⟨171/10,34,301,400⟩, ⟨341/10,50,401,500⟩]
  | .O3   => [⟨0,50,0,50⟩, ⟨51,100,51,100⟩, ⟨101,168,101,200⟩, ⟨169,208,201,300⟩,
              ⟨209,748,301,400⟩, ⟨749,1000,401,500⟩]

/-- Python's built-in `round` on an exact rational: round to the nearest
integer, ties to the even integer.  Uses the computable `Rat.floor`. -/
def pyRound (q : ℚ) : ℤ :=
  if q - Rat.floor q < 1/2 then Rat.floor q
  else if (1:ℚ)/2 < q - Rat.floor q then Rat.floor q + 1
  else if Rat.floor q % 2 = 0 then Rat.floor q else Rat.floor q + 1

/-- The interpolation expression of line 30 of `app1.py`:
`round(((index_high - index_low)/(high - low)) * (value - low) + index_low)`. -/
def interp (bp : BP) (v : ℚ) : ℤ :=
  pyRound ((((bp.index_high : ℚ) - (bp.index_low : ℚ)) / (bp.high - bp.low)) * (v - bp.low)
    + (bp.index_low : ℚ))

/-- The `for bp in breakpoints[pollutant]` loop of lines 27–31: return the
interpolated index at the first matching range, else fall through to `return 0`. -/
def subIndexLoop : List BP → ℚ → ℤ
  | [], _ => 0
  | bp :: rest, v =>
      if bp.low ≤ v ∧ v ≤ bp.high then interp bp v else subIndexLoop rest v

/-- `calculate_sub_index(pollutant, value)` (lines 17–31 of `app1.py`). -/
def calculate_sub_index (p : Pollutant) (v : ℚ) : ℤ :=
  subIndexLoop (breakpoints p) v

/-- The number of breakpoint ranges of the table `l` that contain the
concentration `v` (both endpoints inclusive, as in line 29 of `app1.py`). -/
def matchCount (l : List BP) (v : ℚ) : ℕ :=
  l.countP fun bp => decide (bp.low ≤ v ∧ v ≤ bp.high)

/-- The maximum tabulated concentration of a pollutant: the upper endpoint of
the last breakpoint range of its table (tables are listed in increasing order). -/
def maxConc (p : Pollutant) : ℚ :=
  ((breakpoints p).getLastD ⟨0, 0, 0, 0⟩).high

/-- The category if-chain of `predict_aqi` (lines 68–79 of `app1.py`). -/
def classify (aqi : ℤ) : String :=
  if aqi ≤ 50 then "Good"
  else if aqi ≤ 100 then "Satisfactory"
  else if aqi ≤ 200 then "Moderate"
  else if aqi ≤ 300 then "Poor"
  else if aqi ≤ 400 then "Very Poor"
  else "Severe"

/-- `get_health_tip(aqi)` (lines 33–45 of `app1.py`), message strings verbatim
minus the leading emoji. -/
def get_health_tip (aqi : ℤ) : String :=
  if aqi ≤ 50 then "Good: Air quality is ideal. No precautions needed."
  else if aqi ≤ 100 then "Satisfactory: Acceptable air quality. Sensitive individuals should avoid outdoor exertion."
  else if aqi ≤ 200 then "Moderate: Consider limiting prolonged outdoor exertion."
  else if aqi ≤ 300 then "Poor: People with heart/lung disease, children and older adults should reduce prolonged outdoor exertion."
  else if aqi ≤ 400 then "Very Poor: Everyone should avoid outdoor physical activity."
  else "Severe: Avoid all outdoor activity. Use air purifiers indoors."

/-- The health-tip message associated with each category name: the common
bucket table shared (per the spec) by the category ladder of `predict_aqi`
and the message ladder of `get_health_tip`. -/
def tipFor (category : String) : String :=
  if category = "Good" then "Good: Air quality is ideal. No precautions needed."
  else if category = "Satisfactory" then "Satisfactory: Acceptable air quality. Sensitive individuals should avoid outdoor exertion."
  else if category = "Moderate" then "Moderate: Consider limiting prolonged outdoor exertion."
  else if category = "Poor" then "Poor: People with heart/lung disease, children and older adults should reduce prolonged outdoor exertion."
  else if category = "Very Poor" then "Very Poor: Everyone should avoid outdoor physical activity."
  else "Severe: Avoid all outdoor activity. Use air purifiers indoors."

/-- Python's `max` over the (nonempty) list of values of the sub-index dict
(line 67 of `app1.py`). -/
def maxList : List ℤ → ℤ
  | [] => 0
  | x :: xs => xs.foldl max x

/-- `predict_aqi` (lines 61–80 of `app1.py`) with the per-pollutant model
invocation `models[pollutant].predict(features)[0]` abstracted as
`model : Pollutant → ℚ`: returns `(predicted, sub_indices, aqi, category)`.
The code performs no validation of the model outputs and raises no errors:
the function is total. -/
def predict_aqi (model : Pollutant → ℚ) :
    (Pollutant → ℚ) × (Pollutant → ℤ) × ℤ × String :=
  let predicted := model
  let sub_indices := fun p => calculate_sub_index p (predicted p)
  let aqi := maxList (pollutants.map sub_indices)
  (predicted, sub_indices, aqi, classify aqi)

/-- A mocked model whose outputs produce the sub-indices
`{40, 60, 150, 10, 5, 20, 30}` (in the order of `pollutants`). -/
def mockModel : Pollutant → ℚ
  | .PM25 => 24
  | .PM10 => 60
  | .NO2  => 130
  | .NH3  => 40
  | .SO2  => 4
  | .CO   => 2/5
  | .O3   => 30

/-- A model that returns a physically impossible negative concentration for
PM2.5 and valid concentrations for the other pollutants. -/
def negModel : Pollutant → ℚ
  | .PM25 => -5
  | p => mockModel p

/-- Date features record, from the DataFrame built at lines 53–58 of
`app1.py`: year, month, day and weekday (Monday = 0). -/
structure DateFeatures where
  year : ℕ
  month : ℕ
  day : ℕ
  dayOfWeek : ℕ
  deriving DecidableEq, Repr

/-- Gregorian leap-year rule, as used by Python's `datetime`. -/
def isLeap (y : ℕ) : Bool :=
  y % 4 = 0 && (y % 100 ≠ 0 || y % 400 = 0)

/-- Number of days of month `m` (1–12) of year `y`, per the proleptic
Gregorian calendar of Python's `datetime`. -/
def daysInMonth (y m : ℕ) : ℕ :=
  if m = 2 then (if isLeap y then 29 else 28)
  else if m = 4 ∨ m = 6 ∨ m = 9 ∨ m = 11 then 30
  else 31

/-- Days in the years strictly before year `y` (proleptic Gregorian). -/
def daysBeforeYear (y : ℕ) : ℕ :=
  365 * (y - 1) + (y - 1) / 4 - (y - 1) / 100 + (y - 1) / 400

/-- Days in the months of year `y` strictly before month `m`. -/
def daysBeforeMonth (y m : ℕ) : ℕ :=
  (List.range (m - 1)).foldl (fun acc i => acc + daysInMonth y (i + 1)) 0

/-- Proleptic-Gregorian ordinal of a date (0001-01-01 has ordinal 1),
as in `datetime.date.toordinal`. -/
def toOrdinal (y m d : ℕ) : ℕ :=
  daysBeforeYear y + daysBeforeMonth y m + d

/-- `date.weekday()`: Monday = 0 … Sunday = 6.  0001-01-01 (ordinal 1) is a
Monday in the proleptic Gregorian calendar. -/
def weekday (y m d : ℕ) : ℕ :=
  (toOrdinal y m d + 6) % 7

/-- The numeric value of a list of decimal digit characters. -/
def digitsToNat (ds : List Char) : ℕ :=
  ds.foldl (fun a c => 10 * a + (c.toNat - 48)) 0

/-- Modelled from the behaviour of `datetime.strptime(date_str, "%d-%m-%Y")`
(line 52 of `app1.py`, format-matching part): CPython's `_strptime` matches
`%d` by `(3[01]|[12]\d|0[1-9]|[1-9])` (one or two digits, value 1–31), `%m` by
`(1[0-2]|0[1-9]|[1-9])` (one or two digits, value 1–12), `%Y` by four digits,
literal `-` separators, and requires the whole string to be consumed.
Returns `(day, month, year)` on a format match. -/
def parseDMY (s : String) : Option (ℕ × ℕ × ℕ) :=
  let t1 := s.data.span (·.isDigit)
  match t1.2 with
  | '-' :: r1 =>
    let t2 := r1.span (·.isDigit)
    match t2.2 with
    | '-' :: r2 =>
      let t3 := r2.span (·.isDigit)
      if t3.2 = [] ∧ (t1.1.length = 1 ∨ t1.1.length = 2)
          ∧ (t2.1.length = 1 ∨ t2.1.length = 2) ∧ t3.1.length = 4
          ∧ 1 ≤ digitsToNat t1.1 ∧ digitsToNat t1.1 ≤ 31
          ∧ 1 ≤ digitsToNat t2.1 ∧ digitsToNat t2.1 ≤ 12 then
        some (digitsToNat t1.1, digitsToNat t2.1, digitsToNat t3.1)
      else none
    | _ => none
  | _ => none

/-- `get_date_features(date_str)` (lines 51–58 of `app1.py`): parse the string
per `"%d-%m-%Y"` (see `parseDMY`), validate the calendar date as the
`datetime` constructor does (`1 ≤ year` per `MINYEAR`, day within the month's
length), and extract year, month, day and weekday; `none` models the
`ValueError` raised on a malformed or impossible date. -/
def get_date_features (s : String) : Option DateFeatures :=
  match parseDMY s with
  | none => none
  | some (d, m, y) =>
    if 1 ≤ y ∧ d ≤ daysInMonth y m then some ⟨y, m, d, weekday y m d⟩
    else none

/-! ### Helper lemmas about `pyRound` -/

theorem ratFloor_eq (q : ℚ) : (Rat.floor q : ℤ) = ⌊q⌋ := rfl

theorem pyRound_eq (q : ℚ) :
    pyRound q =
      if q - ⌊q⌋ < 1/2 then ⌊q⌋
      else if (1:ℚ)/2 < q - ⌊q⌋ then ⌊q⌋ + 1
      else if ⌊q⌋ % 2 = 0 then ⌊q⌋ else ⌊q⌋ + 1 := rfl

theorem pyRound_le_int {q : ℚ} {c : ℤ} (h : q ≤ (c : ℚ)) : pyRound q ≤ c := by
  have hfl : ⌊q⌋ ≤ c := by
    have h0 := Int.floor_le_floor h
    rwa [Int.floor_intCast] at h0
  rw [pyRound_eq]
  split_ifs with h2 h3 h4
  · exact hfl
  · have hlt : ((⌊q⌋ : ℤ) : ℚ) < q := by push_neg at h2; linarith
    have hc : ⌊q⌋ < c := by exact_mod_cast lt_of_lt_of_le hlt h
    omega
  · exact hfl
  · have hlt : ((⌊q⌋ : ℤ) : ℚ) < q := by push_neg at h2; linarith
    have hc : ⌊q⌋ < c := by exact_mod_cast lt_of_lt_of_le hlt h
    omega

theorem int_le_pyRound {q : ℚ} {c : ℤ} (h : (c : ℚ) ≤ q) : c ≤ pyRound q := by
  have hfl : c ≤ ⌊q⌋ := Int.le_floor.mpr h
  rw [pyRound_eq]
  split_ifs <;> omega

theorem pyRound_mono {x y : ℚ} (h : x ≤ y) : pyRound x ≤ pyRound y := by
  have hf : ⌊x⌋ ≤ ⌊y⌋ := Int.floor_le_floor h
  rcases eq_or_lt_of_le hf with hEq | hLt
  · rw [pyRound_eq, pyRound_eq, ← hEq]
    split_ifs <;> try omega
    all_goals (exfalso; linarith)
  · rw [pyRound_eq, pyRound_eq]
    split_ifs <;> omega

/-! ### Helper lemmas about `interp` -/

theorem interp_mono {bp : BP} (hlh : bp.low < bp.high) (hil : bp.index_low ≤ bp.index_high)
    {v1 v2 : ℚ} (h12 : v1 ≤ v2) : interp bp v1 ≤ interp bp v2 := by
  unfold interp
  apply pyRound_mono
  have hs : (0:ℚ) ≤ ((bp.index_high : ℚ) - (bp.index_low : ℚ)) / (bp.high - bp.low) := by
    apply div_nonneg
    · have hc : (bp.index_low : ℚ) ≤ (bp.index_high : ℚ) := by exact_mod_cast hil
      linarith
    · linarith
  have hm := mul_le_mul_of_nonneg_left (sub_le_sub_right h12 bp.low) hs
  linarith

theorem interp_le_index_high {bp : BP} (hlh : bp.low < bp.high)
    (hil : bp.index_low ≤ bp.index_high) {v : ℚ} (hv : v ≤ bp.high) :
    interp bp v ≤ bp.index_high := by
  unfold interp
  apply pyRound_le_int
  have hb : bp.high - bp.low ≠ 0 := ne_of_gt (by linarith)
  have hkey : (((bp.index_high : ℚ) - (bp.index_low : ℚ)) / (bp.high - bp.low))
      * (bp.high - bp.low) = (bp.index_high : ℚ) - (bp.index_low : ℚ) :=
    div_mul_cancel₀ _ hb
  have hs : (0:ℚ) ≤ ((bp.index_high : ℚ) - (bp.index_low : ℚ)) / (bp.high - bp.low) := by
    apply div_nonneg
    · have hc : (bp.index_low : ℚ) ≤ (bp.index_high : ℚ) := by exact_mod_cast hil
      linarith
    · linarith
  have hm := mul_le_mul_of_nonneg_left (sub_le_sub_right hv bp.low) hs
  linarith

theorem index_low_le_interp {bp : BP} (hlh : bp.low < bp.high)
    (hil : bp.index_low ≤ bp.index_high) {v : ℚ} (hv : bp.low ≤ v) :
    bp.index_low ≤ interp bp v := by
  unfold interp
  apply int_le_pyRound
  have hs : (0:ℚ) ≤ ((bp.index_high : ℚ) - (bp.index_low : ℚ)) / (bp.high - bp.low) := by
    apply div_nonneg
    · have hc : (bp.index_low : ℚ) ≤ (bp.index_high : ℚ) := by exact_mod_cast hil
      linarith
    · linarith
  have hm : (0:ℚ) ≤ (((bp.index_high : ℚ) - (bp.index_low : ℚ)) / (bp.high - bp.low))
      * (v - bp.low) := mul_nonneg hs (by linarith)
  linarith

/-! ### Facts about the breakpoint tables -/

theorem breakpoints_pairwise (p : Pollutant) :
    List.Pairwise (fun a b : BP => a.high < b.low ∧ a.index_high ≤ b.index_low)
      (breakpoints p) := by
  cases p <;> with_unfolding_all decide

theorem breakpoints_wf (p : Pollutant) :
    ∀ bp ∈ breakpoints p, bp.low < bp.high ∧ bp.index_low ≤ bp.index_high := by
  cases p <;> with_unfolding_all decide

theorem breakpoints_int_high (p : Pollutant) :
    ∀ bp ∈ breakpoints p, (bp.high).den = 1 := by
  cases p <;> with_unfolding_all decide

theorem breakpoints_chain (p : Pollutant) :
    List.Chain' (fun a b : BP => b.low ≤ a.high + 1) (breakpoints p) := by
  cases p <;>
    · simp only [breakpoints, List.chain'_cons, List.chain'_singleton, and_true]
      norm_num

/-! ### The first-match loop versus range membership -/

theorem subIndexLoop_eq_interp {l : List BP}
    (hp : List.Pairwise (fun a b : BP => a.high < b.low) l)
    {bp : BP} (hmem : bp ∈ l) {v : ℚ} (h1 : bp.low ≤ v) (h2 : v ≤ bp.high) :
    subIndexLoop l v = interp bp v := by
  induction l with
  | nil => cases hmem
  | cons a t ih =>
    rcases List.mem_cons.mp hmem with rfl | hmem2
    · unfold subIndexLoop
      rw [if_pos ⟨h1, h2⟩]
    · have hrel := (List.pairwise_cons.mp hp).1 bp hmem2
      have hna : ¬(a.low ≤ v ∧ v ≤ a.high) := by
        rintro ⟨_, hva⟩
        linarith
      unfold subIndexLoop
      rw [if_neg hna]
      exact ih (List.pairwise_cons.mp hp).2 hmem2

theorem subIndexLoop_eq_zero {l : List BP} {v : ℚ}
    (h : ∀ bp ∈ l, ¬(bp.low ≤ v ∧ v ≤ bp.high)) : subIndexLoop l v = 0 := by
  induction l with
  | nil => rfl
  | cons a t ih =>
    unfold subIndexLoop
    rw [if_neg (h a (by simp))]
    exact ih fun bp hbp => h bp (List.mem_cons_of_mem a hbp)

/-! ### Counting matching ranges -/

theorem matchCount_le_one {l : List BP}
    (hp : List.Pairwise (fun a b : BP => a.high < b.low) l) (v : ℚ) :
    matchCount l v ≤ 1 := by
  induction l with
  | nil => simp [matchCount]
  | cons a t ih =>
    obtain ⟨hhead, htail⟩ := List.pairwise_cons.mp hp
    unfold matchCount at *
    rw [List.countP_cons]
    by_cases ha : a.low ≤ v ∧ v ≤ a.high
    · have hzero : List.countP (fun bp => decide (bp.low ≤ v ∧ v ≤ bp.high)) t = 0 := by
        rw [List.countP_eq_zero]
        intro b hb
        simp only [decide_eq_true_eq, not_and]
        intro hb1
        have hab := hhead b hb
        intro hb2
        linarith [ha.2]
      rw [hzero]
      simp [ha]
    · simpa [ha] using ih htail

theorem matchCount_pos {l : List BP} {v : ℚ} {bp : BP} (hmem : bp ∈ l)
    (h1 : bp.low ≤ v) (h2 : v ≤ bp.high) : 0 < matchCount l v := by
  rw [matchCount, List.countP_pos_iff]
  exact ⟨bp, hmem, by simp [h1, h2]⟩

/-! ### Integer coverage of a contiguous-with-unit-gaps table -/

theorem chain_covers (t : List BP) : ∀ (a : BP) (n : ℤ),
    (∀ bp ∈ a :: t, (bp.high).den = 1) →
    List.Chain' (fun x b : BP => b.low ≤ x.high + 1) (a :: t) →
    a.low ≤ (n : ℚ) → (n : ℚ) ≤ ((a :: t).getLastD a).high →
    ∃ bp ∈ a :: t, bp.low ≤ (n : ℚ) ∧ (n : ℚ) ≤ bp.high := by
  induction t with
  | nil =>
    intro a n _ _ hlow hhigh
    exact ⟨a, by simp, hlow, by simpa using hhigh⟩
  | cons b t' ih =>
    intro a n hden hch hlow hhigh
    by_cases hn : (n : ℚ) ≤ a.high
    · exact ⟨a, by simp, hlow, hn⟩
    · have hde : (a.high).den = 1 := hden a (by simp)
      have hcast : ((a.high.num : ℤ) : ℚ) = a.high := Rat.den_eq_one_iff _ |>.mp hde
      have h1 : a.high.num < n := by
        have hq : ((a.high.num : ℤ) : ℚ) < (n : ℚ) := by
          rw [hcast]
          exact lt_of_not_le hn
        exact_mod_cast hq
      have h2 : a.high + 1 ≤ (n : ℚ) := by
        rw [← hcast]
        have hz : a.high.num + 1 ≤ n := by omega
        exact_mod_cast hz
      have hrel : b.low ≤ a.high + 1 := (List.chain'_cons.mp hch).1
      have hblow : b.low ≤ (n : ℚ) := le_trans hrel h2
      have hlast : ((a :: b :: t').getLastD a).high = ((b :: t').getLastD b).high := by
        simp only [List.getLastD_cons]
      rw [hlast] at hhigh
      obtain ⟨bp, hmem, hh⟩ := ih b n
        (fun bp hbp => hden bp (List.mem_cons_of_mem a hbp))
        (List.chain'_cons.mp hch).2 hblow hhigh
      exact ⟨bp, List.mem_cons_of_mem a hmem, hh⟩

/-! ### Table fact: all range lower endpoints are non-negative -/

theorem breakpoints_nonneg_low (p : Pollutant) :
    ∀ bp ∈ breakpoints p, 0 ≤ bp.low := by
  cases p <;> with_unfolding_all decide

/-! ### Claims -/

/-- C1: For every model, `predict_aqi` returns an AQI equal to the maximum
of the per-pollutant sub-indices (never their average or sum) and a category
obtained by classifying that maximum; for the mocked model whose sub-indices
are {40, 60, 150, 10, 5, 20, 30}, the AQI is 150 and the category Moderate. -/
theorem predict_aqi_max_aggregation :
    (∀ model : Pollutant → ℚ,
      (predict_aqi model).2.2.1
          = maxList (pollutants.map fun p => calculate_sub_index p (model p)) ∧
      (predict_aqi model).2.2.2 = classify ((predict_aqi model).2.2.1)) ∧
    pollutants.map (predict_aqi mockModel).2.1 = [40, 60, 150, 10, 5, 20, 30] ∧
    (predict_aqi mockModel).2.2.1 = 150 ∧
    (predict_aqi mockModel).2.2.2 = "Moderate" := by
  refine ⟨fun model => ⟨rfl, rfl⟩, ?_, ?_, ?_⟩ <;> with_unfolding_all decide

/-- C2: For every pollutant and every concentration inside a breakpoint
range of its table (inclusive at both ends), `calculate_sub_index` returns the
rounded linear interpolation for that range. -/
theorem sub_index_linear_interpolation (p : Pollutant) (bp : BP)
    (hmem : bp ∈ breakpoints p) (v : ℚ) (h1 : bp.low ≤ v) (h2 : v ≤ bp.high) :
    calculate_sub_index p v
      = pyRound ((((bp.index_high : ℚ) - (bp.index_low : ℚ)) / (bp.high - bp.low))
          * (v - bp.low) + (bp.index_low : ℚ)) :=
  subIndexLoop_eq_interp ((breakpoints_pairwise p).imp fun h => h.1) hmem h1 h2

theorem sub_index_linear_interpolation_witness :
    calculate_sub_index Pollutant.PM25 24
      = pyRound ((((50:ℤ) : ℚ) - ((0:ℤ) : ℚ)) / ((30:ℚ) - (0:ℚ)) * ((24:ℚ) - (0:ℚ))
          + ((0:ℤ) : ℚ)) :=
  sub_index_linear_interpolation Pollutant.PM25 ⟨0, 30, 0, 50⟩
    (by with_unfolding_all decide) 24 (by norm_num) (by norm_num)

/-- C3: `classify` is total on non-negative AQI values and partitions them
into exactly six non-overlapping buckets with inclusive upper bounds
(≤50 Good, ≤100 Satisfactory, ≤200 Moderate, ≤300 Poor, ≤400 Very Poor,
else Severe); `classify 50 = Good`, `classify 51 = Satisfactory`,
`classify 500 = Severe`. -/
theorem classify_partition :
    (∀ aqi : ℤ, 0 ≤ aqi →
      ((classify aqi = "Good" ↔ aqi ≤ 50) ∧
       (classify aqi = "Satisfactory" ↔ 50 < aqi ∧ aqi ≤ 100) ∧
       (classify aqi = "Moderate" ↔ 100 < aqi ∧ aqi ≤ 200) ∧
       (classify aqi = "Poor" ↔ 200 < aqi ∧ aqi ≤ 300) ∧
       (classify aqi = "Very Poor" ↔ 300 < aqi ∧ aqi ≤ 400) ∧
       (classify aqi = "Severe" ↔ 400 < aqi))) ∧
    classify 50 = "Good" ∧ classify 51 = "Satisfactory" ∧ classify 500 = "Severe" := by
  refine ⟨fun aqi _ => ?_, by decide, by decide, by decide⟩
  unfold classify
  split_ifs with h1 h2 h3 h4 h5 <;>
    refine ⟨?_, ?_, ?_, ?_, ?_, ?_⟩ <;>
      first
        | exact iff_of_true rfl (by omega)
        | exact iff_of_false (by decide) (by omega)

theorem classify_partition_witness :
    classify 42 = "Good" ↔ (42:ℤ) ≤ 50 :=
  (classify_partition.1 42 (by norm_num)).1

/-- C4 counterexample: The PM2.5 concentration 30.5 lies between 0 and
the maximum tabulated concentration but matches no breakpoint range: the
tables do not cover the whole concentration domain (they have gaps strictly
between consecutive ranges). -/
theorem coverage_gap_counterexample :
    (0:ℚ) ≤ 61/2 ∧ (61/2:ℚ) ≤ maxConc Pollutant.PM25 ∧
    matchCount (breakpoints Pollutant.PM25) (61/2) = 0 := by
  with_unfolding_all decide

/-- C4 amended: The breakpoint ranges of every pollutant are
non-overlapping (any concentration matches at most one range), and every
integer concentration from 0 up to the pollutant's maximum tabulated
concentration is matched by exactly one range. -/
theorem coverage_amended :
    (∀ p : Pollutant, ∀ v : ℚ, matchCount (breakpoints p) v ≤ 1) ∧
    (∀ p : Pollutant, ∀ n : ℤ, 0 ≤ n → (n : ℚ) ≤ maxConc p →
      matchCount (breakpoints p) (n : ℚ) = 1) := by
  constructor
  · intro p v
    exact matchCount_le_one ((breakpoints_pairwise p).imp fun h => h.1) v
  · intro p n h0 hM
    have h0q : (0 : ℚ) ≤ (n : ℚ) := by exact_mod_cast h0
    have hex : ∃ bp ∈ breakpoints p, bp.low ≤ (n : ℚ) ∧ (n : ℚ) ≤ bp.high := by
      have hden := breakpoints_int_high p
      have hch := breakpoints_chain p
      cases p <;> exact chain_covers _ _ n hden hch h0q hM
    obtain ⟨bp, hmem, hbp⟩ := hex
    have hle := matchCount_le_one ((breakpoints_pairwise p).imp fun h => h.1) (n : ℚ)
    have hpos := matchCount_pos hmem hbp.1 hbp.2
    omega

theorem coverage_amended_witness :
    matchCount (breakpoints Pollutant.PM25) ((42:ℤ) : ℚ) = 1 :=
  coverage_amended.2 Pollutant.PM25 42 (by norm_num) (by with_unfolding_all decide)

/-- C5 counterexample: Monotonicity fails over all concentrations:
PM2.5 at 500 gives sub-index 500 but at 501 (outside every range) gives 0. -/
theorem monotone_counterexample :
    (500:ℚ) ≤ 501 ∧
    calculate_sub_index Pollutant.PM25 500 = 500 ∧
    calculate_sub_index Pollutant.PM25 501 = 0 ∧
    ¬(calculate_sub_index Pollutant.PM25 500 ≤ calculate_sub_index Pollutant.PM25 501) := by
  with_unfolding_all decide

/-- C5 amended: `calculate_sub_index` is monotonically non-decreasing
across all concentrations that are matched by some breakpoint range of the
pollutant's table. -/
theorem monotone_amended (p : Pollutant) {v1 v2 : ℚ} (h12 : v1 ≤ v2)
    (hv1 : ∃ bp ∈ breakpoints p, bp.low ≤ v1 ∧ v1 ≤ bp.high)
    (hv2 : ∃ bp ∈ breakpoints p, bp.low ≤ v2 ∧ v2 ≤ bp.high) :
    calculate_sub_index p v1 ≤ calculate_sub_index p v2 := by
  obtain ⟨bp1, hm1, h11, h12'⟩ := hv1
  obtain ⟨bp2, hm2, h21, h22⟩ := hv2
  have hpw := breakpoints_pairwise p
  have hdisj := hpw.imp (fun {a b} h => h.1)
  rw [calculate_sub_index, subIndexLoop_eq_interp hdisj hm1 h11 h12']
  rw [calculate_sub_index, subIndexLoop_eq_interp hdisj hm2 h21 h22]
  obtain ⟨hw1l, hw1i⟩ := breakpoints_wf p bp1 hm1
  obtain ⟨hw2l, hw2i⟩ := breakpoints_wf p bp2 hm2
  by_cases heq : bp1 = bp2
  · subst heq
    exact interp_mono hw1l hw1i h12
  · have hsym : Symmetric (fun a b : BP =>
        (a.high < b.low ∧ a.index_high ≤ b.index_low) ∨
        (b.high < a.low ∧ b.index_high ≤ a.index_low)) := fun a b h => h.symm
    have hor := ((hpw.imp fun {a b} h => Or.inl h).forall hsym) hm1 hm2 heq
    rcases hor with ⟨hlt, hidx⟩ | ⟨hlt, hidx⟩
    · calc interp bp1 v1 ≤ bp1.index_high := interp_le_index_high hw1l hw1i h12'
        _ ≤ bp2.index_low := hidx
        _ ≤ interp bp2 v2 := index_low_le_interp hw2l hw2i h21
    · exfalso
      linarith

theorem monotone_amended_witness :
    calculate_sub_index Pollutant.PM25 10 ≤ calculate_sub_index Pollutant.PM25 20 :=
  monotone_amended Pollutant.PM25 (by norm_num)
    ⟨⟨0, 30, 0, 50⟩, by with_unfolding_all decide, by with_unfolding_all decide⟩
    ⟨⟨0, 30, 0, 50⟩, by with_unfolding_all decide, by with_unfolding_all decide⟩

/-- C6: For every pollutant, a concentration outside all breakpoint ranges
(negative, in a gap, or above the table's maximum) yields sub-index 0. -/
theorem calculate_sub_index_out_of_range (p : Pollutant) (v : ℚ)
    (h : ∀ bp ∈ breakpoints p, ¬(bp.low ≤ v ∧ v ≤ bp.high)) :
    calculate_sub_index p v = 0 :=
  subIndexLoop_eq_zero h

theorem calculate_sub_index_out_of_range_witness :
    calculate_sub_index Pollutant.PM25 (-1) = 0 :=
  calculate_sub_index_out_of_range Pollutant.PM25 (-1) (by with_unfolding_all decide)

/-- C7 counterexample: With a model returning −5 for PM2.5 (physically
impossible), `predict_aqi` does not fail: it returns a complete result in
which the invalid concentration is silently coerced to sub-index 0. -/
theorem no_prediction_failure_counterexample :
    negModel Pollutant.PM25 < 0 ∧
    (predict_aqi negModel).2.1 Pollutant.PM25 = 0 ∧
    (predict_aqi negModel).2.2.1 = 150 ∧
    (predict_aqi negModel).2.2.2 = "Moderate" := by
  with_unfolding_all decide

/-- C7 amended: `predict_aqi` performs no validation of model outputs:
a negative concentration for any pollutant is silently coerced to sub-index 0
and a complete result is returned (the embedded function is total; the code
defines no PredictionFailureError). -/
theorem negative_concentration_coerced (model : Pollutant → ℚ) (p : Pollutant)
    (hneg : model p < 0) : (predict_aqi model).2.1 p = 0 := by
  show calculate_sub_index p (model p) = 0
  apply subIndexLoop_eq_zero
  intro bp hbp
  rintro ⟨hl, _⟩
  have h0 := breakpoints_nonneg_low p bp hbp
  linarith

theorem negative_concentration_coerced_witness :
    (predict_aqi negModel).2.1 Pollutant.PM25 = 0 :=
  negative_concentration_coerced negModel Pollutant.PM25 (by with_unfolding_all decide)

set_option maxRecDepth 40000 in
/-- C8: Date feature extraction succeeds, producing year, month, day and
day-of-week, exactly when the string matches the `%d-%m-%Y` format and
denotes a possible calendar date, and fails (models `InvalidDateError`)
otherwise; 29-02-2024 (leap year) succeeds, 29-02-2023 fails. -/
theorem get_date_features_spec :
    (∀ s d m y, parseDMY s = some (d, m, y) → 1 ≤ y → d ≤ daysInMonth y m →
      get_date_features s = some ⟨y, m, d, weekday y m d⟩) ∧
    (∀ s d m y, parseDMY s = some (d, m, y) → ¬(1 ≤ y ∧ d ≤ daysInMonth y m) →
      get_date_features s = none) ∧
    (∀ s, parseDMY s = none → get_date_features s = none) ∧
    get_date_features "29-02-2024" = some ⟨2024, 2, 29, 3⟩ ∧
    get_date_features "29-02-2023" = none := by
  refine ⟨?_, ?_, ?_, ?_, ?_⟩
  · intro s d m y hp h1 h2
    simp [get_date_features, hp, h1, h2]
  · intro s d m y hp hnv
    simp [get_date_features, hp, hnv]
  · intro s hp
    simp [get_date_features, hp]
  · with_unfolding_all decide
  · with_unfolding_all decide

set_option maxRecDepth 40000 in
theorem get_date_features_spec_witness :
    get_date_features "15-03-2024" = some ⟨2024, 3, 15, 4⟩ :=
  get_date_features_spec.1 "15-03-2024" 15 3 2024 (by with_unfolding_all decide)
    (by norm_num) (by with_unfolding_all decide)

/-- C9: For every pollutant and every breakpoint range, the sub-index at
the range's upper boundary is exactly `index_high`; at the pollutant's
maximum tabulated concentration it is exactly 500. -/
theorem boundary_exact (p : Pollutant) :
    (∀ bp ∈ breakpoints p, calculate_sub_index p bp.high = bp.index_high) ∧
    calculate_sub_index p (maxConc p) = 500 := by
  cases p <;> with_unfolding_all decide

theorem boundary_exact_witness :
    calculate_sub_index Pollutant.PM25 (30:ℚ) = (50:ℤ) :=
  (boundary_exact Pollutant.PM25).1 ⟨0, 30, 0, 50⟩ (by with_unfolding_all decide)

/-- C10: The health-advisory lookup uses exactly the six category buckets:
for every AQI, `get_health_tip` returns the message associated with the
category `classify` assigns to that AQI. -/
theorem health_tip_matches_classify (aqi : ℤ) :
    get_health_tip aqi = tipFor (classify aqi) := by
  unfold get_health_tip classify tipFor
  split_ifs <;> simp_all
